import Mathlib

/-!
Shallow embedding of the tapcart block-builder run-dev service
(`src/index.js`, docker variant at lines 1-249 and process variant at
lines 250-711 of the concatenated source).

The service keeps three pieces of process-lifetime state:
  * `sessions`  — a JS `Map` from sessionId to the session record,
  * `usedPorts` — a JS `Set` of ports currently marked in-use,
  * live execution units (docker containers / spawned child processes),
    which we track explicitly as a list of handles so that "a created
    unit was never destroyed" is observable in the model.

External effects that can fail (filesystem writes, `docker.createContainer`,
`container.start`, `container.inspect`, `tapcart block create`, readiness
probing) are driven by an explicit outcome parameter: each constructor of
`DockerStartOutcome` / `ProcStartOutcome` names the first step of the
handler that fails (or `ok` for the happy path), and the handler function
reproduces exactly the statements the source executes up to and including
that failure, followed by the source's corresponding error handling.

JS strings are modelled as Lean `String` with explicit character-list
helpers (`charsHavePre`, `jsDrop`, ...) mirroring `String.prototype`
operations on the ASCII data the service manipulates.
-/

namespace RunDev

/-- One entry of the session registry. The docker variant stores a
`containerId`, the process variant a process handle; both are modelled by
the abstract execution-unit handle `unitId`. Fields mirror
`sessions.set(sessionId, { containerId/process, port, blockName,
configurationId, createdAt })` in the source. -/
structure Session where
  unitId : Nat
  port : Nat
  blockName : String
  configurationId : Option Nat
  createdAt : Nat
deriving DecidableEq

/-- JS `Map<string, Session>` modelled as an insertion-ordered association
list, exactly one entry per key (as long as it is built by `mapSet`). -/
def SessionMap : Type := List (String × Session)

/-- `sessions.get(k)` — first entry with the given key. -/
def mapGet : List (String × Session) → String → Option Session
  | [], _ => none
  | e :: m, k => if e.1 == k then some e.2 else mapGet m k

/-- `sessions.set(k, v)` — replace the entry for `k` in place, or append. -/
def mapSet : List (String × Session) → String → Session → List (String × Session)
  | [], k, v => [(k, v)]
  | e :: m, k, v => if e.1 == k then (k, v) :: m else e :: mapSet m k v

/-- `sessions.delete(k)`. -/
def mapDelete (m : List (String × Session)) (k : String) : List (String × Session) :=
  m.filter (fun e => !(e.1 == k))

/-- The keys of the registry. -/
def mapKeys (m : List (String × Session)) : List String := m.map Prod.fst

/-- `PORT_START` (source line 17). -/
def PORT_START : Nat := 6001

/-- `PORT_END` (source line 18). -/
def PORT_END : Nat := 6020

/-- The candidate ports `PORT_START..PORT_END` scanned in ascending order. -/
def portCandidates : List Nat := List.range' PORT_START (PORT_END + 1 - PORT_START)

/-- `SESSION_TIMEOUT_MS = 30 * 60 * 1000` (source line 22). -/
def SESSION_TIMEOUT_MS : Nat := 30 * 60 * 1000

/-- Whole-service state: the registry, the used-port set (a JS `Set`
modelled as a duplicate-free list), the live execution units, and a
supply of fresh unit handles. -/
structure ServiceState where
  sessions : List (String × Session)
  usedPorts : List Nat
  units : List Nat
  nextUnit : Nat
deriving DecidableEq

/-- The state at process start: everything empty. -/
def initState : ServiceState := ⟨[], [], [], 0⟩

/-- `getAvailablePort` (docker variant, source lines 36-44): scan the range
in ascending order for the first port not in `usedPorts`, add it, return it;
`null` when every candidate is in use. -/
def getAvailablePort (used : List Nat) : Option Nat × List Nat :=
  match portCandidates.find? (fun p => !(used.contains p)) with
  | some p => (some p, used ++ [p])
  | none => (none, used)

/-- `getAvailablePort` (process variant, source lines 289-308): same scan,
but a candidate must additionally pass a real bind check; `extBusy` says
which ports are held by processes outside this service's bookkeeping. -/
def getAvailablePortChecked (used : List Nat) (extBusy : Nat → Bool) :
    Option Nat × List Nat :=
  match portCandidates.find? (fun p => !(used.contains p) && !(extBusy p)) with
  | some p => (some p, used ++ [p])
  | none => (none, used)

/-- `releasePort` (source lines 47-49 / 311-313): `usedPorts.delete(port)`. -/
def releasePort (used : List Nat) (port : Nat) : List Nat :=
  used.filter (fun q => !(q == port))

/-- `cleanupSession` (docker variant lines 52-69, process variant lines
316-344): no-op on an unknown id; otherwise destroy the execution unit
(container stop/remove, or child-process kill — errors swallowed), release
the session's port, and delete the registry entry. -/
def cleanupSession (st : ServiceState) (sessionId : String) : ServiceState :=
  match mapGet st.sessions sessionId with
  | none => st
  | some s =>
    { st with
      units := st.units.filter (fun u => !(u == s.unitId)),
      usedPorts := releasePort st.usedPorts s.port,
      sessions := mapDelete st.sessions sessionId }

/-- Body of a `POST /start-dev` request (source lines 93-101 / 368-376).
A field is `none` when absent from the JSON body; `some ""` is falsy in JS
and is rejected exactly like an absent field. -/
structure StartDevRequest where
  appId : Option String
  merchantName : Option String
  tapcartCliApiKey : Option String
  codeJsx : Option String
  manifestJson : Option String
  appStudioBlockName : Option String
  configurationId : Option Nat
deriving DecidableEq

/-- JS falsiness of a request field: absent or the empty string. -/
def isMissing : Option String → Bool
  | none => true
  | some s => s == ""

/-- The required-field validation (source lines 104 / 379):
`!appId || !merchantName || !tapcartCliApiKey || !codeJsx || !appStudioBlockName`. -/
def validRequest (r : StartDevRequest) : Bool :=
  !(isMissing r.appId) && !(isMissing r.merchantName) &&
    !(isMissing r.tapcartCliApiKey) && !(isMissing r.codeJsx) &&
    !(isMissing r.appStudioBlockName)

/-- The parts of an HTTP response the claims talk about. -/
structure HttpResponse where
  status : Nat
  sessionId : Option String := none
  port : Option Nat := none
deriving DecidableEq

/-- Observable side effects of one `start-dev` request: whether any
filesystem artifact was written and whether the provisioner (docker
container create, or child-process spawn) was invoked. -/
structure Effects where
  fsWritten : Bool := false
  provisionerCalled : Bool := false
deriving DecidableEq

/-- Which step of the docker-variant `start-dev` handler fails first. -/
inductive DockerStartOutcome where
  /-- `fs.mkdir` / `fs.writeFile` throws (lines 119-143). -/
  | fsError
  /-- `docker.createContainer` throws (lines 146-164). -/
  | createError
  /-- `container.start()` throws (line 166): a container exists. -/
  | startError
  /-- `container.inspect()` throws (line 181): container started and the
  session already registered. -/
  | inspectError
  /-- `inspect` succeeds but `State.Running` is false (lines 182-185). -/
  | notRunning
  /-- Happy path. -/
  | ok
deriving DecidableEq

/-- `POST /start-dev` handler, docker variant (source lines 92-203).
`sessionId` abstracts `uuidv4().slice(0, 8)` and `now` abstracts
`Date.now()`. Order of the source: validate fields (400), acquire a port
(503 on `null`), then the `try` block — write artifacts, create and start
the container, register the session, sleep, inspect; the `catch` block
(lines 198-202) only calls `releasePort` and answers 500. -/
def startDevDocker (st : ServiceState) (r : StartDevRequest) (sessionId : String)
    (now : Nat) (env : DockerStartOutcome) :
    HttpResponse × Effects × ServiceState :=
  if !(validRequest r) then ({ status := 400 }, {}, st)
  else
    match getAvailablePort st.usedPorts with
    | (none, _) => ({ status := 503 }, {}, st)
    | (some port, used1) =>
      let st1 : ServiceState := { st with usedPorts := used1 }
      match env with
      | .fsError =>
        ({ status := 500 }, { fsWritten := true },
         { st1 with usedPorts := releasePort st1.usedPorts port })
      | .createError =>
        ({ status := 500 }, { fsWritten := true, provisionerCalled := true },
         { st1 with usedPorts := releasePort st1.usedPorts port })
      | .startError =>
        let st2 : ServiceState :=
          { st1 with units := st1.units ++ [st1.nextUnit], nextUnit := st1.nextUnit + 1 }
        ({ status := 500 }, { fsWritten := true, provisionerCalled := true },
         { st2 with usedPorts := releasePort st2.usedPorts port })
      | .inspectError =>
        let cid := st1.nextUnit
        let st2 : ServiceState :=
          { st1 with units := st1.units ++ [cid], nextUnit := cid + 1 }
        let sess : Session :=
          ⟨cid, port, r.appStudioBlockName.getD "", r.configurationId, now⟩
        let st3 : ServiceState :=
          { st2 with sessions := mapSet st2.sessions sessionId sess }
        ({ status := 500 }, { fsWritten := true, provisionerCalled := true },
         { st3 with usedPorts := releasePort st3.usedPorts port })
      | .notRunning =>
        let cid := st1.nextUnit
        let st2 : ServiceState :=
          { st1 with units := st1.units ++ [cid], nextUnit := cid + 1 }
        let sess : Session :=
          ⟨cid, port, r.appStudioBlockName.getD "", r.configurationId, now⟩
        let st3 : ServiceState :=
          { st2 with sessions := mapSet st2.sessions sessionId sess }
        ({ status := 500 }, { fsWritten := true, provisionerCalled := true },
         cleanupSession st3 sessionId)
      | .ok =>
        let cid := st1.nextUnit
        let st2 : ServiceState :=
          { st1 with units := st1.units ++ [cid], nextUnit := cid + 1 }
        let sess : Session :=
          ⟨cid, port, r.appStudioBlockName.getD "", r.configurationId, now⟩
        let st3 : ServiceState :=
          { st2 with sessions := mapSet st2.sessions sessionId sess }
        ({ status := 200, sessionId := some sessionId, port := some port },
         { fsWritten := true, provisionerCalled := true }, st3)

/-- Which step of the process-variant `start-dev` handler fails first. -/
inductive ProcStartOutcome where
  /-- `fs.mkdir` / `fs.writeFile` throws (lines 394-408). -/
  | fsError
  /-- `tapcart block create` (`execPromise`, lines 412-416) throws. -/
  | blockCreateError
  /-- The child process is spawned and the session registered, but the
  readiness poll never succeeds before the 15 s deadline, or the process
  exits (lines 483-527). -/
  | spawnedNotReady
  /-- Happy path. -/
  | ok
deriving DecidableEq

/-- `POST /start-dev` handler, process variant (source lines 367-547).
The `catch` block (lines 541-546) calls `releasePort` and
`sessions.delete`; the readiness-failure branch (lines 521-527) calls
`cleanupSession` instead. -/
def startDevProcess (st : ServiceState) (r : StartDevRequest) (sessionId : String)
    (now : Nat) (env : ProcStartOutcome) (extBusy : Nat → Bool) :
    HttpResponse × Effects × ServiceState :=
  if !(validRequest r) then ({ status := 400 }, {}, st)
  else
    match getAvailablePortChecked st.usedPorts extBusy with
    | (none, _) => ({ status := 503 }, {}, st)
    | (some port, used1) =>
      let st1 : ServiceState := { st with usedPorts := used1 }
      match env with
      | .fsError =>
        ({ status := 500 }, { fsWritten := true },
         { st1 with usedPorts := releasePort st1.usedPorts port,
                    sessions := mapDelete st1.sessions sessionId })
      | .blockCreateError =>
        ({ status := 500 }, { fsWritten := true },
         { st1 with usedPorts := releasePort st1.usedPorts port,
                    sessions := mapDelete st1.sessions sessionId })
      | .spawnedNotReady =>
        let pid := st1.nextUnit
        let st2 : ServiceState :=
          { st1 with units := st1.units ++ [pid], nextUnit := pid + 1 }
        let sess : Session :=
          ⟨pid, port, r.appStudioBlockName.getD "", r.configurationId, now⟩
        let st3 : ServiceState :=
          { st2 with sessions := mapSet st2.sessions sessionId sess }
        ({ status := 500 }, { fsWritten := true, provisionerCalled := true },
         cleanupSession st3 sessionId)
      | .ok =>
        let pid := st1.nextUnit
        let st2 : ServiceState :=
          { st1 with units := st1.units ++ [pid], nextUnit := pid + 1 }
        let sess : Session :=
          ⟨pid, port, r.appStudioBlockName.getD "", r.configurationId, now⟩
        let st3 : ServiceState :=
          { st2 with sessions := mapSet st2.sessions sessionId sess }
        ({ status := 200, sessionId := some sessionId, port := some port },
         { fsWritten := true, provisionerCalled := true }, st3)

/-- `DELETE /stop-dev/:sessionId` handler (source lines 206-215 / 550-559):
404 when the id is absent, otherwise `cleanupSession` and 200. -/
def stopDev (st : ServiceState) (sessionId : String) : Nat × ServiceState :=
  match mapGet st.sessions sessionId with
  | none => (404, st)
  | some _ => (200, cleanupSession st sessionId)

/-- One step of the periodic sweep body for the registry entry `e` captured
at the start of the tick. -/
def sweepStep (now : Nat) (acc : ServiceState) (e : String × Session) : ServiceState :=
  if now - e.2.createdAt > SESSION_TIMEOUT_MS then cleanupSession acc e.1 else acc

/-- The `setInterval` sweep (source lines 72-80 / 347-355): for every entry
whose age strictly exceeds `SESSION_TIMEOUT_MS`, run `cleanupSession`. -/
def sweep (st : ServiceState) (now : Nat) : ServiceState :=
  st.sessions.foldl (sweepStep now) st

/-- `GET /sessions` handler (source lines 218-230 / 562-574): snapshot of
(sessionId, port, blockName, createdAt) for every registry entry. -/
def listSessions (st : ServiceState) : List (String × Nat × String × Nat) :=
  st.sessions.map (fun e => (e.1, e.2.port, e.2.blockName, e.2.createdAt))

/-- `authenticateApiKey` middleware (source lines 83-89 / 358-364):
`!apiKey || apiKey !== process.env.SERVICE_API_KEY` answers 401. `header`
is the `x-api-key` header (`none` when absent), `serviceKey` the
environment variable (`none` when unset). -/
def authenticateApiKey (header : Option String) (serviceKey : Option String) : Bool :=
  match header with
  | none => false
  | some k =>
    !(k == "") &&
      (match serviceKey with
       | none => false
       | some s => k == s)

/-- Does the character list `l` start with the list `p`? Mirrors JS
`String.prototype.startsWith` on the string data. -/
def charsHavePre : List Char → List Char → Bool
  | _, [] => true
  | [], _ :: _ => false
  | c :: cs, d :: ds => c == d && charsHavePre cs ds

/-- JS `path.startsWith(p)`. -/
def jsStartsWith (s p : String) : Bool := charsHavePre s.data p.data

/-- JS `path.slice(n)` / dropping the first `n` characters. -/
def jsDrop (s : String) (n : Nat) : String := ⟨s.data.drop n⟩

/-- JS `s.length` (the inputs here are ASCII, so code units = characters). -/
def jsLen (s : String) : Nat := s.data.length

/-- The `pathRewrite` function of `createSessionProxy` (source lines
581-591): strip a leading `/dev/{sessionId}` (empty result maps to `/`),
else replace a leading `/dev/` by `/` for cookie-based routing, else leave
the path alone. `path.replace(pre, repl)` replaces the first occurrence,
which under the `startsWith` guard is the prefix. -/
def pathRewrite (sessionId : String) (p : String) : String :=
  if jsStartsWith p ("/dev/" ++ sessionId) then
    let r := jsDrop p (jsLen ("/dev/" ++ sessionId))
    if r == "" then "/" else r
  else if jsStartsWith p "/dev/" then
    let r := "/" ++ jsDrop p 5
    if r == "" then "/" else r
  else p

/-- The `:sessionId` segment express extracts for `app.use('/dev/:sessionId')`
(source line 607): the non-empty segment following `/dev/`. -/
def pathSessionId (p : String) : Option String :=
  if jsStartsWith p "/dev/" then
    let seg := (p.data.drop 5).takeWhile (fun c => !(c == '/'))
    if seg.isEmpty then none else some ⟨seg⟩
  else none

/-- The characters of the literal `dev_session=` looked for by the cookie
regex `/dev_session=([^;]+)/` (source lines 632 / 656). -/
def devSessionKey : List Char := "dev_session=".data

/-- Left-to-right scan of the cookie header for the regex
`dev_session=([^;]+)`: at each position, if the literal matches and is
followed by at least one non-`;` character, capture the run of non-`;`
characters; otherwise resume the search one character later. -/
def scanCookie : List Char → Option String
  | [] => none
  | c :: cs =>
    if charsHavePre (c :: cs) devSessionKey then
      let cap := (List.drop devSessionKey.length (c :: cs)).takeWhile (fun x => !(x == ';'))
      if cap.isEmpty then scanCookie cs else some ⟨cap⟩
    else scanCookie cs

/-- `cookieHeader.match(/dev_session=([^;]+)/)` reduced to its capture. -/
def parseDevSessionCookie (cookie : String) : Option String := scanCookie cookie.data

/-- Outcome of routing one request under the `/dev` middleware stack:
`status = 200` means the request was handed to the proxy for
`http://127.0.0.1:{targetPort}` with the rewritten `forwardedPath`;
`setCookie` is the value given to `res.cookie('dev_session', ...)`. -/
structure RouteResult where
  status : Nat
  targetPort : Option Nat := none
  forwardedPath : Option String := none
  setCookie : Option String := none
deriving DecidableEq

/-- The cookie fallback `app.use('/dev', ...)` (source lines 629-647): no
usable cookie answers 404 `No active session`; a cookie naming an unknown
session answers 404 `Session expired`; otherwise proxy to the cookie's
session with `createSessionProxy`'s path rewrite. -/
def cookieFallback (st : ServiceState) (p : String) (cookieHeader : String) : RouteResult :=
  match parseDevSessionCookie cookieHeader with
  | none => { status := 404 }
  | some sid =>
    match mapGet st.sessions sid with
    | none => { status := 404 }
    | some s =>
      { status := 200, targetPort := some s.port,
        forwardedPath := some (pathRewrite sid p), setCookie := none }

/-- The `/dev` routing stack (source lines 607-647): the path-based route
`app.use('/dev/:sessionId')` proxies to a live session named by the path
segment and sets the affinity cookie; an unknown segment (or no segment)
falls through to the cookie fallback. -/
def devRoute (st : ServiceState) (p : String) (cookieHeader : String) : RouteResult :=
  match pathSessionId p with
  | some sid =>
    match mapGet st.sessions sid with
    | some s =>
      { status := 200, targetPort := some s.port,
        forwardedPath := some (pathRewrite sid p), setCookie := some sid }
    | none => cookieFallback st p cookieHeader
  | none => cookieFallback st p cookieHeader

/-- One externally triggered operation on the service state, for reasoning
about all finite operation sequences. -/
inductive Op where
  /-- An authenticated `POST /start-dev` against the docker variant. -/
  | startDocker (r : StartDevRequest) (sid : String) (now : Nat) (env : DockerStartOutcome)
  /-- An authenticated `POST /start-dev` against the process variant. -/
  | startProc (r : StartDevRequest) (sid : String) (now : Nat) (env : ProcStartOutcome)
      (extBusy : Nat → Bool)
  /-- An authenticated `DELETE /stop-dev/:sid`. -/
  | stop (sid : String)
  /-- One tick of the `setInterval` sweep at time `now`. -/
  | expire (now : Nat)

/-- State transition of one operation. -/
def applyOp (st : ServiceState) : Op → ServiceState
  | .startDocker r sid now env => (startDevDocker st r sid now env).2.2
  | .startProc r sid now env ext => (startDevProcess st r sid now env ext).2.2
  | .stop sid => (stopDev st sid).2
  | .expire now => sweep st now

/-- Run a finite sequence of operations. -/
def runOps (st : ServiceState) (ops : List Op) : ServiceState := ops.foldl applyOp st

/-- A `start-dev` is well behaved when its generated session id is fresh
(an accurate model of `uuidv4().slice(0, 8)` barring collisions) and, for
the docker variant, when no exception strikes between session registration
and the readiness check (`container.inspect()` does not throw). -/
def goodOp (st : ServiceState) : Op → Bool
  | .startDocker _ sid _ env => (mapGet st.sessions sid).isNone && !(env == .inspectError)
  | .startProc _ sid _ _ _ => (mapGet st.sessions sid).isNone
  | .stop _ => true
  | .expire _ => true

/-- Every operation of the sequence is well behaved in the state where it
executes. -/
def goodTrace : ServiceState → List Op → Bool
  | _, [] => true
  | st, op :: ops => goodOp st op && goodTrace (applyOp st op) ops

/-- `POST /start-dev` including the authentication middleware that runs
before the handler body (docker variant). -/
def handleStartDevDocker (header serviceKey : Option String) (st : ServiceState)
    (r : StartDevRequest) (sessionId : String) (now : Nat) (env : DockerStartOutcome) :
    HttpResponse × Effects × ServiceState :=
  if authenticateApiKey header serviceKey then startDevDocker st r sessionId now env
  else ({ status := 401 }, {}, st)

/-- `DELETE /stop-dev/:sessionId` including the authentication middleware. -/
def handleStopDev (header serviceKey : Option String) (st : ServiceState)
    (sessionId : String) : Nat × ServiceState :=
  if authenticateApiKey header serviceKey then stopDev st sessionId
  else (401, st)

/-- `GET /sessions` including the authentication middleware. -/
def handleSessions (header serviceKey : Option String) (st : ServiceState) :
    Nat × List (String × Nat × String × Nat) :=
  if authenticateApiKey header serviceKey then (200, listSessions st)
  else (401, [])

/-! ### Lemmas about the registry map -/

theorem mapGet_del_self (m : List (String × Session)) (k : String) :
    mapGet (mapDelete m k) k = none := by
  induction m with
  | nil => rfl
  | cons e m ih =>
    by_cases h : e.1 == k
    · simpa [mapDelete, List.filter_cons, h] using ih
    · simpa [mapDelete, List.filter_cons, h, mapGet] using ih

theorem mapGet_del_other (m : List (String × Session)) (k k' : String) (h : k' ≠ k) :
    mapGet (mapDelete m k) k' = mapGet m k' := by
  induction m with
  | nil => rfl
  | cons e m ih =>
    by_cases he : e.1 == k
    · have : ¬(e.1 == k') := by
        simp only [beq_iff_eq] at he ⊢
        exact he ▸ fun hh => h hh.symm
      simp [mapDelete, List.filter_cons, he, mapGet, this] at ih ⊢
      exact ih
    · by_cases he' : e.1 == k'
      · simp [mapDelete, List.filter_cons, he, mapGet, he']
      · simp [mapDelete, List.filter_cons, he, mapGet, he'] at ih ⊢
        exact ih

theorem mapGet_set_self (m : List (String × Session)) (k : String) (v : Session) :
    mapGet (mapSet m k v) k = some v := by
  induction m with
  | nil => simp [mapSet, mapGet]
  | cons e m ih =>
    by_cases h : e.1 == k
    · simp [mapSet, h, mapGet]
    · simp [mapSet, h, mapGet, ih]

theorem mapGet_eq_none_iff (m : List (String × Session)) (k : String) :
    mapGet m k = none ↔ ∀ e ∈ m, e.1 ≠ k := by
  induction m with
  | nil => simp [mapGet]
  | cons e m ih =>
    by_cases h : e.1 == k
    · simp only [beq_iff_eq] at h
      simp [mapGet, h]
    · simp only [beq_iff_eq] at h
      simp [mapGet, h, ih]

theorem mapDelete_of_get_none (m : List (String × Session)) (k : String)
    (h : mapGet m k = none) : mapDelete m k = m := by
  rw [mapGet_eq_none_iff] at h
  refine List.filter_eq_self.mpr fun e he => ?_
  simpa using h e he

theorem mapSet_of_get_none (m : List (String × Session)) (k : String) (v : Session)
    (h : mapGet m k = none) : mapSet m k v = m ++ [(k, v)] := by
  induction m with
  | nil => rfl
  | cons e m ih =>
    rw [mapGet_eq_none_iff] at h
    have he : ¬(e.1 == k) := by
      simpa using h e (by simp)
    have hm : mapGet m k = none := by
      rw [mapGet_eq_none_iff]
      exact fun x hx => h x (by simp [hx])
    simp [mapSet, he, ih hm]

theorem mapDelete_mapSet_fresh (m : List (String × Session)) (k : String) (v : Session)
    (h : mapGet m k = none) : mapDelete (mapSet m k v) k = m := by
  rw [mapSet_of_get_none m k v h, mapDelete, List.filter_append]
  rw [mapGet_eq_none_iff] at h
  have h1 : m.filter (fun e => !(e.1 == k)) = m :=
    List.filter_eq_self.mpr fun e he => by simpa using h e he
  simp [h1]

theorem mapGet_some_mem (m : List (String × Session)) (k : String) (v : Session)
    (h : mapGet m k = some v) : (k, v) ∈ m := by
  induction m with
  | nil => simp [mapGet] at h
  | cons e m ih =>
    by_cases he : e.1 == k
    · simp only [beq_iff_eq] at he
      simp [mapGet, he] at h
      have hkv : (k, v) = e := by
        obtain ⟨e1, e2⟩ := e
        simp_all
      rw [hkv]
      exact List.mem_cons_self e m
    · simp [mapGet, he] at h
      exact List.mem_cons_of_mem _ (ih h)

theorem mapGet_unique (m : List (String × Session)) (k : String) (v : Session) :
    (mapKeys m).Nodup → mapGet m k = some v → ∀ e ∈ m, e.1 = k → e.2 = v := by
  induction m with
  | nil => simp
  | cons e m ih =>
    intro hnd h x hx hxk
    simp only [mapKeys, List.map_cons, List.nodup_cons] at hnd
    by_cases he : e.1 == k
    · simp only [beq_iff_eq] at he
      simp [mapGet, he] at h
      rcases List.mem_cons.mp hx with rfl | hxm
      · exact h
      · exact absurd (by rw [he, ← hxk]; exact List.mem_map_of_mem Prod.fst hxm) hnd.1
    · simp only [beq_iff_eq] at he
      simp [mapGet, he] at h
      rcases List.mem_cons.mp hx with rfl | hxm
      · exact absurd hxk he
      · exact ih hnd.2 h x hxm hxk

/-! ### Lemmas about the port allocator -/

theorem releasePort_mem (used : List Nat) (p q : Nat) :
    q ∈ releasePort used p ↔ q ∈ used ∧ q ≠ p := by
  simp [releasePort, List.mem_filter]

theorem not_mem_releasePort_self (used : List Nat) (p : Nat) :
    p ∉ releasePort used p := by
  simp [releasePort_mem]

theorem releasePort_append_self (used : List Nat) (p : Nat) (h : p ∉ used) :
    releasePort (used ++ [p]) p = used := by
  rw [releasePort, List.filter_append]
  have h1 : used.filter (fun q => !(q == p)) = used :=
    List.filter_eq_self.mpr fun q hq => by
      simp only [Bool.not_eq_eq_eq_not, Bool.not_true, beq_eq_false_iff_ne, ne_eq]
      exact fun hqp => h (hqp ▸ hq)
  simp [h1]

theorem contains_eq_mem_bool (l : List Nat) (p : Nat) :
    l.contains p = decide (p ∈ l) :=
  List.elem_eq_mem p l

theorem gap_some_spec (used u' : List Nat) (p : Nat)
    (h : getAvailablePort used = (some p, u')) :
    p ∈ portCandidates ∧ p ∉ used ∧ u' = used ++ [p] := by
  unfold getAvailablePort at h
  rcases hf : portCandidates.find? (fun q => !(used.contains q)) with _ | q
  · rw [hf] at h
    simp at h
  · rw [hf] at h
    have hmem := List.mem_of_find?_eq_some hf
    have hp := List.find?_some hf
    simp only [Prod.mk.injEq, Option.some.injEq] at h
    obtain ⟨rfl, rfl⟩ := h
    refine ⟨hmem, ?_, rfl⟩
    simpa [contains_eq_mem_bool] using hp

theorem gap_none_of_full (used : List Nat)
    (h : ∀ p ∈ portCandidates, p ∈ used) :
    getAvailablePort used = (none, used) := by
  unfold getAvailablePort
  have hf : portCandidates.find? (fun q => !(used.contains q)) = none := by
    rw [List.find?_eq_none]
    intro q hq
    simpa [contains_eq_mem_bool] using h q hq
  rw [hf]

theorem gap_isSome_of_free (used : List Nat) (p : Nat)
    (hc : p ∈ portCandidates) (hn : p ∉ used) :
    (getAvailablePort used).1.isSome = true := by
  have hsome : (portCandidates.find? (fun q => !(used.contains q))).isSome = true := by
    rw [List.find?_isSome]
    exact ⟨p, hc, by simpa [contains_eq_mem_bool] using hn⟩
  unfold getAvailablePort
  rcases hf : portCandidates.find? (fun q => !(used.contains q)) with _ | q
  · rw [hf] at hsome
    simp at hsome
  · rfl

theorem gapChecked_some_spec (used u' : List Nat) (extBusy : Nat → Bool) (p : Nat)
    (h : getAvailablePortChecked used extBusy = (some p, u')) :
    p ∈ portCandidates ∧ p ∉ used ∧ u' = used ++ [p] := by
  unfold getAvailablePortChecked at h
  rcases hf : portCandidates.find? (fun q => !(used.contains q) && !(extBusy q)) with _ | q
  · rw [hf] at h
    simp at h
  · rw [hf] at h
    have hmem := List.mem_of_find?_eq_some hf
    have hp := List.find?_some hf
    simp only [Prod.mk.injEq, Option.some.injEq] at h
    obtain ⟨rfl, rfl⟩ := h
    refine ⟨hmem, ?_, rfl⟩
    have hsplit := (Bool.and_eq_true _ _).mp hp
    simpa [contains_eq_mem_bool] using hsplit.1

theorem gapChecked_none_of_full (used : List Nat) (extBusy : Nat → Bool)
    (h : ∀ p ∈ portCandidates, p ∈ used) :
    getAvailablePortChecked used extBusy = (none, used) := by
  unfold getAvailablePortChecked
  have hf : portCandidates.find? (fun q => !(used.contains q) && !(extBusy q)) = none := by
    rw [List.find?_eq_none]
    intro q hq
    simp [contains_eq_mem_bool, h q hq]
  rw [hf]

theorem gap_none_snd (used u' : List Nat) (h : getAvailablePort used = (none, u')) :
    u' = used := by
  unfold getAvailablePort at h
  rcases hf : portCandidates.find? (fun q => !(used.contains q)) with _ | q
  · rw [hf] at h
    simpa using h.symm
  · rw [hf] at h
    simp at h

theorem gapChecked_none_snd (used u' : List Nat) (ext : Nat → Bool)
    (h : getAvailablePortChecked used ext = (none, u')) : u' = used := by
  unfold getAvailablePortChecked at h
  rcases hf : portCandidates.find? (fun q => !(used.contains q) && !(ext q)) with _ | q
  · rw [hf] at h
    simpa using h.symm
  · rw [hf] at h
    simp at h

/-! ### Reduction lemmas: each handler branch in explicit form -/

theorem cleanupSession_of_get (st : ServiceState) (sid : String) (s : Session)
    (h : mapGet st.sessions sid = some s) :
    cleanupSession st sid =
      { st with units := st.units.filter (fun u => !(u == s.unitId)),
                usedPorts := releasePort st.usedPorts s.port,
                sessions := mapDelete st.sessions sid } := by
  unfold cleanupSession
  rw [h]

theorem cleanupSession_of_none (st : ServiceState) (sid : String)
    (h : mapGet st.sessions sid = none) : cleanupSession st sid = st := by
  unfold cleanupSession
  rw [h]

theorem cleanupSession_get_self (st : ServiceState) (sid : String) :
    mapGet (cleanupSession st sid).sessions sid = none := by
  rcases hg : mapGet st.sessions sid with _ | s
  · rw [cleanupSession_of_none st sid hg, hg]
  · rw [cleanupSession_of_get st sid s hg]
    exact mapGet_del_self st.sessions sid

theorem cleanupSession_get_other (st : ServiceState) (sid k : String) (h : k ≠ sid) :
    mapGet (cleanupSession st sid).sessions k = mapGet st.sessions k := by
  rcases hg : mapGet st.sessions sid with _ | s
  · rw [cleanupSession_of_none st sid hg]
  · rw [cleanupSession_of_get st sid s hg]
    exact mapGet_del_other st.sessions sid k h

theorem dockerRed_invalid (st : ServiceState) (r : StartDevRequest) (sid : String)
    (now : Nat) (env : DockerStartOutcome) (hv : validRequest r = false) :
    startDevDocker st r sid now env = ({ status := 400 }, {}, st) := by
  unfold startDevDocker
  rw [hv]
  rfl

theorem dockerRed_noPort (st : ServiceState) (r : StartDevRequest) (sid : String)
    (now : Nat) (env : DockerStartOutcome) (u1 : List Nat) (hv : validRequest r = true)
    (hg : getAvailablePort st.usedPorts = (none, u1)) :
    startDevDocker st r sid now env = ({ status := 503 }, {}, st) := by
  unfold startDevDocker
  rw [hv, hg]
  rfl

theorem dockerRed_fsError (st : ServiceState) (r : StartDevRequest) (sid : String)
    (now : Nat) (p : Nat) (u1 : List Nat) (hv : validRequest r = true)
    (hg : getAvailablePort st.usedPorts = (some p, u1)) :
    startDevDocker st r sid now .fsError =
      ({ status := 500 }, { fsWritten := true },
       { st with usedPorts := releasePort u1 p }) := by
  unfold startDevDocker
  rw [hv, hg]
  rfl

theorem dockerRed_createError (st : ServiceState) (r : StartDevRequest) (sid : String)
    (now : Nat) (p : Nat) (u1 : List Nat) (hv : validRequest r = true)
    (hg : getAvailablePort st.usedPorts = (some p, u1)) :
    startDevDocker st r sid now .createError =
      ({ status := 500 }, { fsWritten := true, provisionerCalled := true },
       { st with usedPorts := releasePort u1 p }) := by
  unfold startDevDocker
  rw [hv, hg]
  rfl

theorem dockerRed_startError (st : ServiceState) (r : StartDevRequest) (sid : String)
    (now : Nat) (p : Nat) (u1 : List Nat) (hv : validRequest r = true)
    (hg : getAvailablePort st.usedPorts = (some p, u1)) :
    startDevDocker st r sid now .startError =
      ({ status := 500 }, { fsWritten := true, provisionerCalled := true },
       { st with usedPorts := releasePort u1 p,
                 units := st.units ++ [st.nextUnit], nextUnit := st.nextUnit + 1 }) := by
  unfold startDevDocker
  rw [hv, hg]
  rfl

theorem dockerRed_inspectError (st : ServiceState) (r : StartDevRequest) (sid : String)
    (now : Nat) (p : Nat) (u1 : List Nat) (hv : validRequest r = true)
    (hg : getAvailablePort st.usedPorts = (some p, u1)) :
    startDevDocker st r sid now .inspectError =
      ({ status := 500 }, { fsWritten := true, provisionerCalled := true },
       { st with usedPorts := releasePort u1 p,
                 units := st.units ++ [st.nextUnit], nextUnit := st.nextUnit + 1,
                 sessions := mapSet st.sessions sid
                   ⟨st.nextUnit, p, r.appStudioBlockName.getD "", r.configurationId, now⟩ }) := by
  unfold startDevDocker
  rw [hv, hg]
  rfl

theorem dockerRed_notRunning (st : ServiceState) (r : StartDevRequest) (sid : String)
    (now : Nat) (p : Nat) (u1 : List Nat) (hv : validRequest r = true)
    (hg : getAvailablePort st.usedPorts = (some p, u1)) :
    startDevDocker st r sid now .notRunning =
      ({ status := 500 }, { fsWritten := true, provisionerCalled := true },
       cleanupSession
         { st with usedPorts := u1,
                   units := st.units ++ [st.nextUnit], nextUnit := st.nextUnit + 1,
                   sessions := mapSet st.sessions sid
                     ⟨st.nextUnit, p, r.appStudioBlockName.getD "", r.configurationId, now⟩ }
         sid) := by
  unfold startDevDocker
  rw [hv, hg]
  rfl

theorem dockerRed_ok (st : ServiceState) (r : StartDevRequest) (sid : String)
    (now : Nat) (p : Nat) (u1 : List Nat) (hv : validRequest r = true)
    (hg : getAvailablePort st.usedPorts = (some p, u1)) :
    startDevDocker st r sid now .ok =
      ({ status := 200, sessionId := some sid, port := some p },
       { fsWritten := true, provisionerCalled := true },
       { st with usedPorts := u1,
                 units := st.units ++ [st.nextUnit], nextUnit := st.nextUnit + 1,
                 sessions := mapSet st.sessions sid
                   ⟨st.nextUnit, p, r.appStudioBlockName.getD "", r.configurationId, now⟩ }) := by
  unfold startDevDocker
  rw [hv, hg]
  rfl

theorem procRed_invalid (st : ServiceState) (r : StartDevRequest) (sid : String)
    (now : Nat) (env : ProcStartOutcome) (ext : Nat → Bool) (hv : validRequest r = false) :
    startDevProcess st r sid now env ext = ({ status := 400 }, {}, st) := by
  unfold startDevProcess
  rw [hv]
  rfl

theorem procRed_noPort (st : ServiceState) (r : StartDevRequest) (sid : String)
    (now : Nat) (env : ProcStartOutcome) (ext : Nat → Bool) (u1 : List Nat)
    (hv : validRequest r = true)
    (hg : getAvailablePortChecked st.usedPorts ext = (none, u1)) :
    startDevProcess st r sid now env ext = ({ status := 503 }, {}, st) := by
  unfold startDevProcess
  rw [hv, hg]
  rfl

theorem procRed_fsError (st : ServiceState) (r : StartDevRequest) (sid : String)
    (now : Nat) (ext : Nat → Bool) (p : Nat) (u1 : List Nat)
    (hv : validRequest r = true)
    (hg : getAvailablePortChecked st.usedPorts ext = (some p, u1)) :
    startDevProcess st r sid now .fsError ext =
      ({ status := 500 }, { fsWritten := true },
       { st with usedPorts := releasePort u1 p,
                 sessions := mapDelete st.sessions sid }) := by
  unfold startDevProcess
  rw [hv, hg]
  rfl

theorem procRed_blockCreateError (st : ServiceState) (r : StartDevRequest) (sid : String)
    (now : Nat) (ext : Nat → Bool) (p : Nat) (u1 : List Nat)
    (hv : validRequest r = true)
    (hg : getAvailablePortChecked st.usedPorts ext = (some p, u1)) :
    startDevProcess st r sid now .blockCreateError ext =
      ({ status := 500 }, { fsWritten := true },
       { st with usedPorts := releasePort u1 p,
                 sessions := mapDelete st.sessions sid }) := by
  unfold startDevProcess
  rw [hv, hg]
  rfl

theorem procRed_spawnedNotReady (st : ServiceState) (r : StartDevRequest) (sid : String)
    (now : Nat) (ext : Nat → Bool) (p : Nat) (u1 : List Nat)
    (hv : validRequest r = true)
    (hg : getAvailablePortChecked st.usedPorts ext = (some p, u1)) :
    startDevProcess st r sid now .spawnedNotReady ext =
      ({ status := 500 }, { fsWritten := true, provisionerCalled := true },
       cleanupSession
         { st with usedPorts := u1,
                   units := st.units ++ [st.nextUnit], nextUnit := st.nextUnit + 1,
                   sessions := mapSet st.sessions sid
                     ⟨st.nextUnit, p, r.appStudioBlockName.getD "", r.configurationId, now⟩ }
         sid) := by
  unfold startDevProcess
  rw [hv, hg]
  rfl

theorem procRed_ok (st : ServiceState) (r : StartDevRequest) (sid : String)
    (now : Nat) (ext : Nat → Bool) (p : Nat) (u1 : List Nat)
    (hv : validRequest r = true)
    (hg : getAvailablePortChecked st.usedPorts ext = (some p, u1)) :
    startDevProcess st r sid now .ok ext =
      ({ status := 200, sessionId := some sid, port := some p },
       { fsWritten := true, provisionerCalled := true },
       { st with usedPorts := u1,
                 units := st.units ++ [st.nextUnit], nextUnit := st.nextUnit + 1,
                 sessions := mapSet st.sessions sid
                   ⟨st.nextUnit, p, r.appStudioBlockName.getD "", r.configurationId, now⟩ }) := by
  unfold startDevProcess
  rw [hv, hg]
  rfl

/-! ### Shared concrete inputs for witnesses and counterexamples -/

/-- The concrete valid request of spec §8: `{appId:"a1", merchantName:"m",
tapcartCliApiKey:"k", codeJsx:"<code/>", appStudioBlockName:"blk"}`. -/
def req0 : StartDevRequest :=
  ⟨some "a1", some "m", some "k", some "c", none, some "blk", none⟩

/-- A state with one live session `s1` (a successful docker start). -/
def demoState : ServiceState := (startDevDocker initState req0 "s1" 0 .ok).2.2

/-- A state whose port pool is completely exhausted. -/
def fullState : ServiceState := { initState with usedPorts := portCandidates }

/-! ### C7 -/

/-- C7: `DELETE /stop-dev/{sessionId}` on a registered session answers 200
and removes the session; every subsequent call with the same id answers 404
and leaves the state untouched; a stop on an unknown id returns 404 and has
no effect on the registry or the port pool. -/
theorem C7_stop_idempotent (st : ServiceState) (sid : String) :
    ((mapGet st.sessions sid).isSome = true →
       (stopDev st sid).1 = 200 ∧
       mapGet (stopDev st sid).2.sessions sid = none ∧
       stopDev (stopDev st sid).2 sid = (404, (stopDev st sid).2)) ∧
    (mapGet st.sessions sid = none → stopDev st sid = (404, st)) := by
  constructor
  · intro h
    rcases hg : mapGet st.sessions sid with _ | s
    · rw [hg] at h
      simp at h
    · have h1 : stopDev st sid = (200, cleanupSession st sid) := by
        unfold stopDev
        rw [hg]
      have h2 : mapGet (cleanupSession st sid).sessions sid = none :=
        cleanupSession_get_self st sid
      refine ⟨by rw [h1], by rw [h1]; exact h2, ?_⟩
      rw [h1]
      unfold stopDev
      rw [h2]
  · intro h
    unfold stopDev
    rw [h]

/-- Witness for C7 at a concrete one-session state. -/
theorem C7_stop_idempotent_witness :
    (mapGet demoState.sessions "s1").isSome = true ∧
    ((stopDev demoState "s1").1 = 200 ∧
     mapGet (stopDev demoState "s1").2.sessions "s1" = none ∧
     stopDev (stopDev demoState "s1").2 "s1" = (404, (stopDev demoState "s1").2)) :=
  ⟨by decide, (C7_stop_idempotent demoState "s1").1 (by decide)⟩

/-! ### C8 -/

/-- C8: a `start-dev` request (passing field validation) arriving when every
port of the configured range is in use answers 503, with no filesystem
artifact written, no provisioner call, no session registered and the state
unchanged — in both variants. -/
theorem C8_capacity_exhausted (st : ServiceState) (r : StartDevRequest) (sid : String)
    (now : Nat) (env : DockerStartOutcome) (penv : ProcStartOutcome) (ext : Nat → Bool)
    (hv : validRequest r = true)
    (hall : ∀ p ∈ portCandidates, p ∈ st.usedPorts) :
    startDevDocker st r sid now env = ({ status := 503 }, {}, st) ∧
    startDevProcess st r sid now penv ext = ({ status := 503 }, {}, st) := by
  refine ⟨dockerRed_noPort st r sid now env st.usedPorts hv ?_,
          procRed_noPort st r sid now penv ext st.usedPorts hv ?_⟩
  · exact gap_none_of_full st.usedPorts hall
  · exact gapChecked_none_of_full st.usedPorts ext hall

/-- Witness for C8 at the fully exhausted pool. -/
theorem C8_capacity_exhausted_witness :
    validRequest req0 = true ∧
    (∀ p ∈ portCandidates, p ∈ fullState.usedPorts) ∧
    startDevDocker fullState req0 "s1" 0 .ok = ({ status := 503 }, {}, fullState) :=
  ⟨by decide, by decide,
   (C8_capacity_exhausted fullState req0 "s1" 0 .ok .ok (fun _ => false)
     (by decide) (by decide)).1⟩

/-! ### C9 -/

theorem validRequest_eq_false_of_missing (r : StartDevRequest)
    (h : isMissing r.appId = true ∨ isMissing r.merchantName = true ∨
      isMissing r.tapcartCliApiKey = true ∨ isMissing r.codeJsx = true ∨
      isMissing r.appStudioBlockName = true) :
    validRequest r = false := by
  unfold validRequest
  rcases h with h | h | h | h | h <;> simp [h]

/-- C9: a `start-dev` request missing any required field (absent or falsy
`appId`, `merchantName`, `tapcartCliApiKey`, `codeJsx` or
`appStudioBlockName`) answers 400 with no port acquired, no session
registered, no filesystem write, no provisioner call, and an unchanged
state — in both variants. -/
theorem C9_missing_fields (st : ServiceState) (r : StartDevRequest) (sid : String)
    (now : Nat) (env : DockerStartOutcome) (penv : ProcStartOutcome) (ext : Nat → Bool)
    (h : isMissing r.appId = true ∨ isMissing r.merchantName = true ∨
      isMissing r.tapcartCliApiKey = true ∨ isMissing r.codeJsx = true ∨
      isMissing r.appStudioBlockName = true) :
    startDevDocker st r sid now env = ({ status := 400 }, {}, st) ∧
    startDevProcess st r sid now penv ext = ({ status := 400 }, {}, st) := by
  have hv := validRequest_eq_false_of_missing r h
  exact ⟨dockerRed_invalid st r sid now env hv, procRed_invalid st r sid now penv ext hv⟩

/-- Witness for C9: a request lacking `tapcartCliApiKey`. -/
theorem C9_missing_fields_witness :
    isMissing (StartDevRequest.mk (some "a1") (some "m") none (some "c") none
      (some "blk") none).tapcartCliApiKey = true ∧
    startDevDocker demoState
      (StartDevRequest.mk (some "a1") (some "m") none (some "c") none (some "blk") none)
      "s9" 5 .ok = ({ status := 400 }, {}, demoState) :=
  ⟨by decide,
   (C9_missing_fields demoState
     (StartDevRequest.mk (some "a1") (some "m") none (some "c") none (some "blk") none)
     "s9" 5 .ok .ok (fun _ => false) (Or.inr (Or.inr (Or.inl (by decide))))).1⟩

/-! ### C10 -/

theorem auth_eq_false (header serviceKey : Option String)
    (h : serviceKey = none ∨ header = none ∨
      ∃ hk sk, header = some hk ∧ serviceKey = some sk ∧ hk ≠ sk) :
    authenticateApiKey header serviceKey = false := by
  rcases h with rfl | rfl | ⟨hk, sk, rfl, rfl, hne⟩
  · cases header with
    | none => rfl
    | some k => simp [authenticateApiKey]
  · rfl
  · simp [authenticateApiKey]
    intro h1
    simpa using hne

/-- C10: the shared-secret middleware fails closed: with
`SERVICE_API_KEY` unset every authenticated endpoint answers 401 whatever
`x-api-key` the client sends, and an absent or mismatched `x-api-key` is
rejected before the handler body runs — the state is returned untouched. -/
theorem C10_auth_fails_closed (header serviceKey : Option String) (st : ServiceState)
    (r : StartDevRequest) (sid : String) (now : Nat) (env : DockerStartOutcome)
    (h : serviceKey = none ∨ header = none ∨
      ∃ hk sk, header = some hk ∧ serviceKey = some sk ∧ hk ≠ sk) :
    handleStartDevDocker header serviceKey st r sid now env = ({ status := 401 }, {}, st) ∧
    handleStopDev header serviceKey st sid = (401, st) ∧
    handleSessions header serviceKey st = (401, []) := by
  have ha := auth_eq_false header serviceKey h
  refine ⟨?_, ?_, ?_⟩
  · unfold handleStartDevDocker
    rw [ha]
    rfl
  · unfold handleStopDev
    rw [ha]
    rfl
  · unfold handleSessions
    rw [ha]
    rfl

/-- Witness for C10: unset secret together with a supplied header. -/
theorem C10_auth_fails_closed_witness :
    ((none : Option String) = none ∨ (some "guess" : Option String) = none ∨
      ∃ hk sk, (some "guess" : Option String) = some hk ∧
        (none : Option String) = some sk ∧ hk ≠ sk) ∧
    handleStopDev (some "guess") none demoState "s1" = (401, demoState) :=
  ⟨Or.inl rfl,
   (C10_auth_fails_closed (some "guess") none demoState req0 "s1" 0 .ok
     (Or.inl rfl)).2.1⟩

/-! ### C4 -/

theorem cleanup_mk (ss : List (String × Session)) (up un : List Nat) (nu : Nat)
    (sid : String) (v : Session) (h : mapGet ss sid = some v) :
    cleanupSession ⟨ss, up, un, nu⟩ sid =
      ⟨mapDelete ss sid, releasePort up v.port,
       un.filter (fun u => !(u == v.unitId)), nu⟩ := by
  unfold cleanupSession
  rw [h]

/-- C4: when the execution unit is created but the dev server never becomes
ready before the deadline (docker: `inspect` reports not running; process:
the 15 s poll times out or the process exits), the handler answers 500,
the session is absent from the registry afterwards, and its allocated port
is back in the free pool and acquirable by a subsequent `start-dev`. -/
theorem C4_startup_failure (st : ServiceState) (r : StartDevRequest) (sid : String)
    (now : Nat) (ext : Nat → Bool) (pD pP : Nat) (uD uP : List Nat)
    (hv : validRequest r = true)
    (hD : getAvailablePort st.usedPorts = (some pD, uD))
    (hP : getAvailablePortChecked st.usedPorts ext = (some pP, uP)) :
    ((startDevDocker st r sid now .notRunning).1.status = 500 ∧
     mapGet (startDevDocker st r sid now .notRunning).2.2.sessions sid = none ∧
     pD ∉ (startDevDocker st r sid now .notRunning).2.2.usedPorts ∧
     (getAvailablePort (startDevDocker st r sid now .notRunning).2.2.usedPorts).1.isSome
       = true) ∧
    ((startDevProcess st r sid now .spawnedNotReady ext).1.status = 500 ∧
     mapGet (startDevProcess st r sid now .spawnedNotReady ext).2.2.sessions sid = none ∧
     pP ∉ (startDevProcess st r sid now .spawnedNotReady ext).2.2.usedPorts ∧
     (getAvailablePort
       (startDevProcess st r sid now .spawnedNotReady ext).2.2.usedPorts).1.isSome
       = true) := by
  obtain ⟨hcD, hnD, huD⟩ := gap_some_spec st.usedPorts uD pD hD
  obtain ⟨hcP, hnP, huP⟩ := gapChecked_some_spec st.usedPorts uP ext pP hP
  constructor
  · rw [dockerRed_notRunning st r sid now pD uD hv hD,
      cleanup_mk _ _ _ _ sid _ (mapGet_set_self st.sessions sid _)]
    have hout : pD ∉ releasePort uD pD := not_mem_releasePort_self uD pD
    exact ⟨rfl, mapGet_del_self _ sid, hout, gap_isSome_of_free _ pD hcD hout⟩
  · rw [procRed_spawnedNotReady st r sid now ext pP uP hv hP,
      cleanup_mk _ _ _ _ sid _ (mapGet_set_self st.sessions sid _)]
    have hout : pP ∉ releasePort uP pP := not_mem_releasePort_self uP pP
    exact ⟨rfl, mapGet_del_self _ sid, hout, gap_isSome_of_free _ pP hcP hout⟩

/-- Witness for C4 at the empty state. -/
theorem C4_startup_failure_witness :
    validRequest req0 = true ∧
    getAvailablePort initState.usedPorts = (some 6001, [6001]) ∧
    ((startDevDocker initState req0 "s1" 0 .notRunning).1.status = 500 ∧
     mapGet (startDevDocker initState req0 "s1" 0 .notRunning).2.2.sessions "s1" = none ∧
     6001 ∉ (startDevDocker initState req0 "s1" 0 .notRunning).2.2.usedPorts ∧
     (getAvailablePort
       (startDevDocker initState req0 "s1" 0 .notRunning).2.2.usedPorts).1.isSome = true) :=
  ⟨by decide, by decide,
   (C4_startup_failure initState req0 "s1" 0 (fun _ => false) 6001 6001 [6001] [6001]
     (by decide) (by decide) (by decide)).1⟩

/-! ### C1 -/

/-- C1 counterexample: docker-variant `start-dev` requests on the empty
state. When `container.start()` throws — a branch the claim names
explicitly — the handler answers 500 but the container it created (unit 0)
is never destroyed. When `container.inspect()` throws, additionally the
registered session `s1` stays in the registry while its port was already
released. So the claim that every error branch tears down the execution
unit and the registry entry is false. -/
theorem C1_teardown_counterexample :
    ((startDevDocker initState req0 "s1" 0 .startError).1.status = 500 ∧
     (startDevDocker initState req0 "s1" 0 .startError).2.2.units = [0] ∧
     (startDevDocker initState req0 "s1" 0 .startError).2.2.usedPorts = []) ∧
    ((startDevDocker initState req0 "s1" 0 .inspectError).1.status = 500 ∧
     (startDevDocker initState req0 "s1" 0 .inspectError).2.2.units = [0] ∧
     (mapGet (startDevDocker initState req0 "s1" 0 .inspectError).2.2.sessions "s1").isSome
       = true ∧
     (startDevDocker initState req0 "s1" 0 .inspectError).2.2.usedPorts = []) := by
  decide

/-- C1 amended: on every failing `start-dev` the acquired port is returned
to the free pool before the error response, and the readiness-failure
branch of the docker variant — as well as every error branch of the process
variant — also removes the session and destroys the created execution unit;
the docker variant's exception branches (create/start/inspect throwing),
however, only release the port. -/
theorem C1_teardown_amended (st : ServiceState) (r : StartDevRequest) (sid : String)
    (now : Nat) (ext : Nat → Bool)
    (hv : validRequest r = true)
    (hsid : mapGet st.sessions sid = none)
    (hunit : st.nextUnit ∉ st.units) :
    (∀ env : DockerStartOutcome, env ≠ .ok →
       (startDevDocker st r sid now env).2.2.usedPorts = st.usedPorts) ∧
    ((startDevDocker st r sid now .notRunning).2.2.sessions = st.sessions ∧
     (startDevDocker st r sid now .notRunning).2.2.units = st.units) ∧
    (∀ penv : ProcStartOutcome, penv ≠ .ok →
       (startDevProcess st r sid now penv ext).2.2.usedPorts = st.usedPorts ∧
       (startDevProcess st r sid now penv ext).2.2.sessions = st.sessions ∧
       (startDevProcess st r sid now penv ext).2.2.units = st.units) := by
  rcases hg : getAvailablePort st.usedPorts with ⟨o, u1⟩
  rcases hgP : getAvailablePortChecked st.usedPorts ext with ⟨oP, uP⟩
  cases o with
  | none =>
    have hu1 := gap_none_snd st.usedPorts u1 hg
    subst hu1
    cases oP with
    | none =>
      have huP := gapChecked_none_snd st.usedPorts uP ext hgP
      subst huP
      refine ⟨fun env _ => ?_, ⟨?_, ?_⟩, fun penv _ => ?_⟩
      · rw [dockerRed_noPort st r sid now env _ hv hg]
      · rw [dockerRed_noPort st r sid now _ _ hv hg]
      · rw [dockerRed_noPort st r sid now _ _ hv hg]
      · rw [procRed_noPort st r sid now penv ext _ hv hgP]
        exact ⟨rfl, rfl, rfl⟩
    | some pP =>
      obtain ⟨hcP, hnP, huP⟩ := gapChecked_some_spec st.usedPorts uP ext pP hgP
      subst huP
      refine ⟨fun env _ => ?_, ⟨?_, ?_⟩, fun penv hne => ?_⟩
      · rw [dockerRed_noPort st r sid now env _ hv hg]
      · rw [dockerRed_noPort st r sid now _ _ hv hg]
      · rw [dockerRed_noPort st r sid now _ _ hv hg]
      · cases penv with
        | fsError =>
          rw [procRed_fsError st r sid now ext pP _ hv hgP]
          exact ⟨releasePort_append_self _ _ hnP, mapDelete_of_get_none _ _ hsid, rfl⟩
        | blockCreateError =>
          rw [procRed_blockCreateError st r sid now ext pP _ hv hgP]
          exact ⟨releasePort_append_self _ _ hnP, mapDelete_of_get_none _ _ hsid, rfl⟩
        | spawnedNotReady =>
          rw [procRed_spawnedNotReady st r sid now ext pP _ hv hgP,
            cleanup_mk _ _ _ _ sid _ (mapGet_set_self st.sessions sid _)]
          exact ⟨releasePort_append_self _ _ hnP,
            mapDelete_mapSet_fresh _ _ _ hsid,
            releasePort_append_self st.units st.nextUnit hunit⟩
        | ok => exact absurd rfl hne
  | some p =>
    obtain ⟨hc, hn, hu⟩ := gap_some_spec st.usedPorts u1 p hg
    subst hu
    have hports : releasePort (st.usedPorts ++ [p]) p = st.usedPorts :=
      releasePort_append_self _ _ hn
    have hdockerClean :
        (startDevDocker st r sid now .notRunning).2.2 =
          ⟨st.sessions, st.usedPorts, st.units, st.nextUnit + 1⟩ := by
      rw [dockerRed_notRunning st r sid now p _ hv hg,
        cleanup_mk _ _ _ _ sid _ (mapGet_set_self st.sessions sid _)]
      show (⟨mapDelete (mapSet st.sessions sid _) sid, releasePort (st.usedPorts ++ [p]) p,
        releasePort (st.units ++ [st.nextUnit]) st.nextUnit, st.nextUnit + 1⟩ : ServiceState) = _
      rw [mapDelete_mapSet_fresh _ _ _ hsid, hports,
        releasePort_append_self st.units st.nextUnit hunit]
    refine ⟨fun env hne => ?_, ⟨?_, ?_⟩, fun penv hne => ?_⟩
    · cases env with
      | fsError => rw [dockerRed_fsError st r sid now p _ hv hg]; exact hports
      | createError => rw [dockerRed_createError st r sid now p _ hv hg]; exact hports
      | startError => rw [dockerRed_startError st r sid now p _ hv hg]; exact hports
      | inspectError => rw [dockerRed_inspectError st r sid now p _ hv hg]; exact hports
      | notRunning => rw [hdockerClean]
      | ok => exact absurd rfl hne
    · rw [hdockerClean]
    · rw [hdockerClean]
    · cases oP with
      | none =>
        rw [procRed_noPort st r sid now penv ext _ hv hgP]
        exact ⟨rfl, rfl, rfl⟩
      | some pP =>
        obtain ⟨hcP, hnP, huP⟩ := gapChecked_some_spec st.usedPorts uP ext pP hgP
        subst huP
        cases penv with
        | fsError =>
          rw [procRed_fsError st r sid now ext pP _ hv hgP]
          exact ⟨releasePort_append_self _ _ hnP, mapDelete_of_get_none _ _ hsid, rfl⟩
        | blockCreateError =>
          rw [procRed_blockCreateError st r sid now ext pP _ hv hgP]
          exact ⟨releasePort_append_self _ _ hnP, mapDelete_of_get_none _ _ hsid, rfl⟩
        | spawnedNotReady =>
          rw [procRed_spawnedNotReady st r sid now ext pP _ hv hgP,
            cleanup_mk _ _ _ _ sid _ (mapGet_set_self st.sessions sid _)]
          exact ⟨releasePort_append_self _ _ hnP,
            mapDelete_mapSet_fresh _ _ _ hsid,
            releasePort_append_self st.units st.nextUnit hunit⟩
        | ok => exact absurd rfl hne

/-- Witness for C1 amended at the empty state. -/
theorem C1_teardown_amended_witness :
    validRequest req0 = true ∧
    mapGet initState.sessions "s1" = none ∧
    (startDevDocker initState req0 "s1" 0 .startError).2.2.usedPorts
      = initState.usedPorts :=
  ⟨by decide, by decide,
   (C1_teardown_amended initState req0 "s1" 0 (fun _ => false)
     (by decide) (by decide) (by decide)).1 .startError (by decide)⟩

/-! ### C5 -/

theorem cleanup_ports_subset (st : ServiceState) (sid : String) (q : Nat)
    (h : q ∈ (cleanupSession st sid).usedPorts) : q ∈ st.usedPorts := by
  rcases hg : mapGet st.sessions sid with _ | s
  · rw [cleanupSession_of_none st sid hg] at h
    exact h
  · rw [cleanupSession_of_get st sid s hg] at h
    exact ((releasePort_mem st.usedPorts s.port q).mp h).1

theorem sweepFold_absent (now : Nat) (l : List (String × Session)) (acc : ServiceState)
    (sid : String) (h : mapGet acc.sessions sid = none) :
    mapGet (List.foldl (sweepStep now) acc l).sessions sid = none := by
  induction l generalizing acc with
  | nil => exact h
  | cons e l ih =>
    rw [List.foldl_cons]
    apply ih
    unfold sweepStep
    split
    · by_cases hk : sid = e.1
      · subst hk
        exact cleanupSession_get_self acc e.1
      · rw [cleanupSession_get_other acc e.1 sid hk]
        exact h
    · exact h

theorem sweepFold_port_out (now : Nat) (l : List (String × Session)) (acc : ServiceState)
    (p : Nat) (h : p ∉ acc.usedPorts) :
    p ∉ (List.foldl (sweepStep now) acc l).usedPorts := by
  induction l generalizing acc with
  | nil => exact h
  | cons e l ih =>
    rw [List.foldl_cons]
    apply ih
    unfold sweepStep
    split
    · exact fun hmem => h (cleanup_ports_subset acc e.1 p hmem)
    · exact h

theorem sweepFold_get_preserved (now : Nat) (l : List (String × Session))
    (acc : ServiceState) (sid : String) (hks : ∀ e ∈ l, e.1 ≠ sid) :
    mapGet (List.foldl (sweepStep now) acc l).sessions sid = mapGet acc.sessions sid := by
  induction l generalizing acc with
  | nil => rfl
  | cons e l ih =>
    rw [List.foldl_cons,
      ih _ (fun x hx => hks x (List.mem_cons_of_mem e hx))]
    unfold sweepStep
    split
    · exact cleanupSession_get_other acc e.1 sid
        (fun hh => hks e (List.mem_cons_self e l) hh.symm)
    · rfl

theorem sweepFold_young (now : Nat) (l : List (String × Session)) (acc : ServiceState)
    (sid : String) (s : Session) (hg : mapGet acc.sessions sid = some s)
    (hyoung : ¬(now - s.createdAt > SESSION_TIMEOUT_MS))
    (huniq : ∀ e ∈ l, e.1 = sid → e.2 = s) :
    mapGet (List.foldl (sweepStep now) acc l).sessions sid = some s := by
  induction l generalizing acc with
  | nil => exact hg
  | cons e l ih =>
    rw [List.foldl_cons]
    refine ih _ ?_ (fun x hx => huniq x (List.mem_cons_of_mem e hx))
    by_cases hk : e.1 = sid
    · have he2 : e.2 = s := huniq e (List.mem_cons_self e l) hk
      unfold sweepStep
      rw [he2]
      simp only [hyoung, if_false]
      exact hg
    · unfold sweepStep
      split
      · rw [cleanupSession_get_other acc e.1 sid (fun hh => hk hh.symm)]
        exact hg
      · exact hg

theorem mapGet_split (m : List (String × Session)) (sid : String) (s : Session)
    (h : mapGet m sid = some s) :
    ∃ l1 l2, m = l1 ++ (sid, s) :: l2 ∧ ∀ e ∈ l1, e.1 ≠ sid := by
  induction m with
  | nil => simp [mapGet] at h
  | cons e m ih =>
    by_cases he : e.1 == sid
    · simp only [beq_iff_eq] at he
      simp [mapGet, he] at h
      refine ⟨[], m, ?_, by simp⟩
      obtain ⟨e1, e2⟩ := e
      simp_all
    · simp [mapGet, he] at h
      obtain ⟨l1, l2, rfl, hk⟩ := ih h
      simp only [beq_iff_eq] at he
      refine ⟨e :: l1, l2, rfl, ?_⟩
      intro x hx
      rcases List.mem_cons.mp hx with rfl | hxm
      · exact he
      · exact hk x hxm

/-- C5: after a sweep tick at time `now`, every session whose age strictly
exceeds the 30-minute timeout is gone from the registry (hence from
`GET /sessions`), its port is back in the free pool and acquirable by a
subsequent `start-dev`; a session whose age is within the timeout is
untouched. -/
theorem C5_sweep_expiry (st : ServiceState) (now : Nat) (sid : String) (s : Session)
    (hnd : (mapKeys st.sessions).Nodup)
    (hget : mapGet st.sessions sid = some s)
    (hcand : s.port ∈ portCandidates) :
    (now - s.createdAt > SESSION_TIMEOUT_MS →
       mapGet (sweep st now).sessions sid = none ∧
       (∀ x ∈ listSessions (sweep st now), x.1 ≠ sid) ∧
       s.port ∉ (sweep st now).usedPorts ∧
       (getAvailablePort (sweep st now).usedPorts).1.isSome = true) ∧
    (now - s.createdAt ≤ SESSION_TIMEOUT_MS →
       mapGet (sweep st now).sessions sid = some s) := by
  constructor
  · intro hexp
    obtain ⟨l1, l2, hsplit, hl1⟩ := mapGet_split st.sessions sid s hget
    have hacc1 : mapGet (List.foldl (sweepStep now) st l1).sessions sid = some s := by
      rw [sweepFold_get_preserved now l1 st sid hl1]
      exact hget
    have hcl := cleanupSession_of_get (List.foldl (sweepStep now) st l1) sid s hacc1
    have hstep : sweepStep now (List.foldl (sweepStep now) st l1) (sid, s) =
        cleanupSession (List.foldl (sweepStep now) st l1) sid := by
      unfold sweepStep
      simp [hexp]
    have hsweep : sweep st now =
        List.foldl (sweepStep now)
          (cleanupSession (List.foldl (sweepStep now) st l1) sid) l2 := by
      unfold sweep
      rw [hsplit, List.foldl_append, List.foldl_cons, hstep]
    have habs : mapGet (sweep st now).sessions sid = none := by
      rw [hsweep]
      exact sweepFold_absent now l2 _ sid (cleanupSession_get_self _ sid)
    have hport : s.port ∉ (sweep st now).usedPorts := by
      rw [hsweep]
      apply sweepFold_port_out
      rw [hcl]
      exact not_mem_releasePort_self _ s.port
    refine ⟨habs, ?_, hport, gap_isSome_of_free _ s.port hcand hport⟩
    intro x hx
    rw [mapGet_eq_none_iff] at habs
    unfold listSessions at hx
    obtain ⟨e, he, rfl⟩ := List.mem_map.mp hx
    exact habs e he
  · intro hyoung
    have hyoung' : ¬(now - s.createdAt > SESSION_TIMEOUT_MS) := by omega
    unfold sweep
    exact sweepFold_young now st.sessions st sid s hget hyoung'
      (mapGet_unique st.sessions sid s hnd hget)

/-- Witness for C5: one expired session at the demo state. -/
theorem C5_sweep_expiry_witness :
    (SESSION_TIMEOUT_MS + 1) - (0 : Nat) > SESSION_TIMEOUT_MS ∧
    (mapGet (sweep demoState (SESSION_TIMEOUT_MS + 1)).sessions "s1" = none ∧
     (∀ x ∈ listSessions (sweep demoState (SESSION_TIMEOUT_MS + 1)), x.1 ≠ "s1") ∧
     (Session.mk 0 6001 "blk" none 0).port ∉
       (sweep demoState (SESSION_TIMEOUT_MS + 1)).usedPorts ∧
     (getAvailablePort (sweep demoState (SESSION_TIMEOUT_MS + 1)).usedPorts).1.isSome
       = true) :=
  ⟨by decide,
   (C5_sweep_expiry demoState (SESSION_TIMEOUT_MS + 1) "s1" (Session.mk 0 6001 "blk" none 0)
     (by decide) (by decide) (by decide)).1 (by decide)⟩

/-! ### C3 -/

/-- Well-formedness of the used-port set: no duplicates (it models a JS
`Set`) and every member lies in the configured range. -/
def PortsWF (used : List Nat) : Prop :=
  used.Nodup ∧ ∀ p ∈ used, p ∈ portCandidates

theorem portsWF_release (used : List Nat) (p : Nat) (h : PortsWF used) :
    PortsWF (releasePort used p) :=
  ⟨h.1.filter _, fun q hq => h.2 q ((releasePort_mem used p q).mp hq).1⟩

theorem portsWF_append (used : List Nat) (p : Nat) (h : PortsWF used)
    (hc : p ∈ portCandidates) (hn : p ∉ used) : PortsWF (used ++ [p]) := by
  constructor
  · simp [List.nodup_append, h.1, hn]
  · intro q hq
    rcases List.mem_append.mp hq with hq | hq
    · exact h.2 q hq
    · have : q = p := by simpa using hq
      exact this ▸ hc

theorem portsWF_cleanup (st : ServiceState) (sid : String)
    (h : PortsWF st.usedPorts) : PortsWF (cleanupSession st sid).usedPorts := by
  rcases hg : mapGet st.sessions sid with _ | s
  · rw [cleanupSession_of_none st sid hg]
    exact h
  · rw [cleanupSession_of_get st sid s hg]
    exact portsWF_release st.usedPorts s.port h

theorem portsWF_startDocker (st : ServiceState) (r : StartDevRequest) (sid : String)
    (now : Nat) (env : DockerStartOutcome) (h : PortsWF st.usedPorts) :
    PortsWF (startDevDocker st r sid now env).2.2.usedPorts := by
  cases hv : validRequest r with
  | false =>
    rw [dockerRed_invalid st r sid now env hv]
    exact h
  | true =>
    rcases hg : getAvailablePort st.usedPorts with ⟨o, u1⟩
    cases o with
    | none =>
      rw [dockerRed_noPort st r sid now env u1 hv hg]
      exact h
    | some p =>
      obtain ⟨hc, hn, hu⟩ := gap_some_spec st.usedPorts u1 p hg
      subst hu
      have hwf1 : PortsWF (st.usedPorts ++ [p]) := portsWF_append st.usedPorts p h hc hn
      cases env with
      | fsError =>
        rw [dockerRed_fsError st r sid now p _ hv hg]
        exact portsWF_release _ p hwf1
      | createError =>
        rw [dockerRed_createError st r sid now p _ hv hg]
        exact portsWF_release _ p hwf1
      | startError =>
        rw [dockerRed_startError st r sid now p _ hv hg]
        exact portsWF_release _ p hwf1
      | inspectError =>
        rw [dockerRed_inspectError st r sid now p _ hv hg]
        exact portsWF_release _ p hwf1
      | notRunning =>
        rw [dockerRed_notRunning st r sid now p _ hv hg]
        exact portsWF_cleanup _ sid hwf1
      | ok =>
        rw [dockerRed_ok st r sid now p _ hv hg]
        exact hwf1

theorem portsWF_startProc (st : ServiceState) (r : StartDevRequest) (sid : String)
    (now : Nat) (env : ProcStartOutcome) (ext : Nat → Bool) (h : PortsWF st.usedPorts) :
    PortsWF (startDevProcess st r sid now env ext).2.2.usedPorts := by
  cases hv : validRequest r with
  | false =>
    rw [procRed_invalid st r sid now env ext hv]
    exact h
  | true =>
    rcases hg : getAvailablePortChecked st.usedPorts ext with ⟨o, u1⟩
    cases o with
    | none =>
      rw [procRed_noPort st r sid now env ext u1 hv hg]
      exact h
    | some p =>
      obtain ⟨hc, hn, hu⟩ := gapChecked_some_spec st.usedPorts u1 ext p hg
      subst hu
      have hwf1 : PortsWF (st.usedPorts ++ [p]) := portsWF_append st.usedPorts p h hc hn
      cases env with
      | fsError =>
        rw [procRed_fsError st r sid now ext p _ hv hg]
        exact portsWF_release _ p hwf1
      | blockCreateError =>
        rw [procRed_blockCreateError st r sid now ext p _ hv hg]
        exact portsWF_release _ p hwf1
      | spawnedNotReady =>
        rw [procRed_spawnedNotReady st r sid now ext p _ hv hg]
        exact portsWF_cleanup _ sid hwf1
      | ok =>
        rw [procRed_ok st r sid now ext p _ hv hg]
        exact hwf1

theorem portsWF_stop (st : ServiceState) (sid : String) (h : PortsWF st.usedPorts) :
    PortsWF (stopDev st sid).2.usedPorts := by
  unfold stopDev
  rcases hg : mapGet st.sessions sid with _ | s
  · exact h
  · exact portsWF_cleanup st sid h

theorem portsWF_sweep (st : ServiceState) (now : Nat) (h : PortsWF st.usedPorts) :
    PortsWF (sweep st now).usedPorts := by
  unfold sweep
  generalize st.sessions = l
  induction l generalizing st with
  | nil => exact h
  | cons e l ih =>
    rw [List.foldl_cons]
    apply ih
    unfold sweepStep
    split
    · exact portsWF_cleanup st e.1 h
    · exact h

theorem portsWF_applyOp (st : ServiceState) (op : Op) (h : PortsWF st.usedPorts) :
    PortsWF (applyOp st op).usedPorts := by
  cases op with
  | startDocker r sid now env => exact portsWF_startDocker st r sid now env h
  | startProc r sid now env ext => exact portsWF_startProc st r sid now env ext h
  | stop sid => exact portsWF_stop st sid h
  | expire now => exact portsWF_sweep st now h

theorem portsWF_runOps (ops : List Op) :
    PortsWF (runOps initState ops).usedPorts := by
  have hgen : ∀ st, PortsWF st.usedPorts → PortsWF (runOps st ops).usedPorts := by
    induction ops with
    | nil => exact fun st h => h
    | cons op ops ih =>
      intro st h
      exact ih (applyOp st op) (portsWF_applyOp st op h)
  exact hgen initState ⟨List.nodup_nil, fun p hp => absurd hp (List.not_mem_nil p)⟩

theorem portsWF_length_le (used : List Nat) (h : PortsWF used) : used.length ≤ 20 := by
  calc used.length = used.toFinset.card := (List.toFinset_card_of_nodup h.1).symm
    _ ≤ portCandidates.toFinset.card := by
        apply Finset.card_le_card
        intro x hx
        rw [List.mem_toFinset] at hx ⊢
        exact h.2 x hx
    _ ≤ portCandidates.length := portCandidates.toFinset_card_le
    _ = 20 := by decide

/-- C3: over every finite sequence of `start-dev` / `stop-dev` (and sweep)
operations from the empty state, the used-port set never holds more than
the 20 ports of the configured range 6001..6020, and its size never goes
below zero. -/
theorem C3_port_pool_bounded (ops : List Op) :
    (runOps initState ops).usedPorts.length ≤ 20 ∧
    0 ≤ (runOps initState ops).usedPorts.length :=
  ⟨portsWF_length_le _ (portsWF_runOps ops), Nat.zero_le _⟩

/-! ### C2 -/

/-- The registry/pool coupling: session ids are pairwise distinct, every
live session's port is marked in-use, and no two distinct live sessions
hold the same port. -/
def RegistryInv (m : List (String × Session)) (used : List Nat) : Prop :=
  (mapKeys m).Nodup ∧
  (∀ e ∈ m, e.2.port ∈ used) ∧
  ∀ e1 ∈ m, ∀ e2 ∈ m, e1.1 ≠ e2.1 → e1.2.port ≠ e2.2.port

theorem mapDelete_mem (m : List (String × Session)) (k : String) (e : String × Session) :
    e ∈ mapDelete m k ↔ e ∈ m ∧ e.1 ≠ k := by
  simp [mapDelete, List.mem_filter]

theorem inv_cleanup (st : ServiceState) (sid : String)
    (h : RegistryInv st.sessions st.usedPorts) :
    RegistryInv (cleanupSession st sid).sessions (cleanupSession st sid).usedPorts := by
  rcases hg : mapGet st.sessions sid with _ | s
  · rw [cleanupSession_of_none st sid hg]
    exact h
  · rw [cleanupSession_of_get st sid s hg]
    obtain ⟨hnd, hmem, hexcl⟩ := h
    refine ⟨?_, ?_, ?_⟩
    · exact hnd.sublist ((List.filter_sublist st.sessions).map Prod.fst)
    · intro e he
      obtain ⟨he1, hekey⟩ := (mapDelete_mem st.sessions sid e).mp he
      rw [releasePort_mem]
      exact ⟨hmem e he1, hexcl e he1 (sid, s) (mapGet_some_mem _ _ _ hg) hekey⟩
    · intro e1 he1 e2 he2 hne
      exact hexcl e1 ((mapDelete_mem _ _ _).mp he1).1 e2 ((mapDelete_mem _ _ _).mp he2).1 hne

theorem inv_register (m : List (String × Session)) (used : List Nat) (sid : String)
    (v : Session) (h : RegistryInv m used) (hsid : mapGet m sid = none)
    (hn : v.port ∉ used) :
    RegistryInv (mapSet m sid v) (used ++ [v.port]) := by
  obtain ⟨hnd, hmem, hexcl⟩ := h
  rw [mapSet_of_get_none m sid v hsid]
  have hknot : sid ∉ mapKeys m := by
    rw [mapGet_eq_none_iff] at hsid
    intro hmemk
    obtain ⟨e, he, hek⟩ := List.mem_map.mp hmemk
    exact hsid e he hek
  refine ⟨?_, ?_, ?_⟩
  · show (List.map Prod.fst (m ++ [(sid, v)])).Nodup
    rw [List.map_append]
    refine List.Nodup.append hnd (List.nodup_singleton sid) ?_
    intro a ha hb
    simp only [List.map_cons, List.map_nil, List.mem_singleton] at hb
    subst hb
    exact hknot ha
  · intro e he
    rcases List.mem_append.mp he with he | he
    · exact List.mem_append_left _ (hmem e he)
    · have hev : e = (sid, v) := by simpa using he
      subst hev
      exact List.mem_append_right _ (by simp)
  · intro e1 he1 e2 he2 hne
    rcases List.mem_append.mp he1 with h1 | h1 <;> rcases List.mem_append.mp he2 with h2 | h2
    · exact hexcl e1 h1 e2 h2 hne
    · have hev : e2 = (sid, v) := by simpa using h2
      subst hev
      intro hp
      exact hn (hp ▸ hmem e1 h1)
    · have hev : e1 = (sid, v) := by simpa using h1
      subst hev
      intro hp
      exact hn (hp.symm ▸ hmem e2 h2)
    · have hev1 : e1 = (sid, v) := by simpa using h1
      have hev2 : e2 = (sid, v) := by simpa using h2
      subst hev1
      subst hev2
      exact absurd rfl hne

theorem inv_startDocker (st : ServiceState) (r : StartDevRequest) (sid : String)
    (now : Nat) (env : DockerStartOutcome)
    (h : RegistryInv st.sessions st.usedPorts)
    (hsid : mapGet st.sessions sid = none)
    (henv : env ≠ DockerStartOutcome.inspectError) :
    RegistryInv (startDevDocker st r sid now env).2.2.sessions
      (startDevDocker st r sid now env).2.2.usedPorts := by
  cases hv : validRequest r with
  | false =>
    rw [dockerRed_invalid st r sid now env hv]
    exact h
  | true =>
    rcases hg : getAvailablePort st.usedPorts with ⟨o, u1⟩
    cases o with
    | none =>
      rw [dockerRed_noPort st r sid now env u1 hv hg]
      exact h
    | some p =>
      obtain ⟨hc, hn, hu⟩ := gap_some_spec st.usedPorts u1 p hg
      subst hu
      have hports := releasePort_append_self st.usedPorts p hn
      cases env with
      | fsError =>
        rw [dockerRed_fsError st r sid now p _ hv hg]
        show RegistryInv st.sessions (releasePort (st.usedPorts ++ [p]) p)
        rw [hports]
        exact h
      | createError =>
        rw [dockerRed_createError st r sid now p _ hv hg]
        show RegistryInv st.sessions (releasePort (st.usedPorts ++ [p]) p)
        rw [hports]
        exact h
      | startError =>
        rw [dockerRed_startError st r sid now p _ hv hg]
        show RegistryInv st.sessions (releasePort (st.usedPorts ++ [p]) p)
        rw [hports]
        exact h
      | inspectError => exact absurd rfl henv
      | notRunning =>
        rw [dockerRed_notRunning st r sid now p _ hv hg,
          cleanup_mk _ _ _ _ sid _ (mapGet_set_self st.sessions sid _)]
        show RegistryInv (mapDelete (mapSet st.sessions sid _) sid)
          (releasePort (st.usedPorts ++ [p]) p)
        rw [mapDelete_mapSet_fresh _ _ _ hsid, hports]
        exact h
      | ok =>
        rw [dockerRed_ok st r sid now p _ hv hg]
        exact inv_register st.sessions st.usedPorts sid _ h hsid hn

theorem inv_startProc (st : ServiceState) (r : StartDevRequest) (sid : String)
    (now : Nat) (env : ProcStartOutcome) (ext : Nat → Bool)
    (h : RegistryInv st.sessions st.usedPorts)
    (hsid : mapGet st.sessions sid = none) :
    RegistryInv (startDevProcess st r sid now env ext).2.2.sessions
      (startDevProcess st r sid now env ext).2.2.usedPorts := by
  cases hv : validRequest r with
  | false =>
    rw [procRed_invalid st r sid now env ext hv]
    exact h
  | true =>
    rcases hg : getAvailablePortChecked st.usedPorts ext with ⟨o, u1⟩
    cases o with
    | none =>
      rw [procRed_noPort st r sid now env ext u1 hv hg]
      exact h
    | some p =>
      obtain ⟨hc, hn, hu⟩ := gapChecked_some_spec st.usedPorts u1 ext p hg
      subst hu
      have hports := releasePort_append_self st.usedPorts p hn
      cases env with
      | fsError =>
        rw [procRed_fsError st r sid now ext p _ hv hg]
        show RegistryInv (mapDelete st.sessions sid) (releasePort (st.usedPorts ++ [p]) p)
        rw [mapDelete_of_get_none _ _ hsid, hports]
        exact h
      | blockCreateError =>
        rw [procRed_blockCreateError st r sid now ext p _ hv hg]
        show RegistryInv (mapDelete st.sessions sid) (releasePort (st.usedPorts ++ [p]) p)
        rw [mapDelete_of_get_none _ _ hsid, hports]
        exact h
      | spawnedNotReady =>
        rw [procRed_spawnedNotReady st r sid now ext p _ hv hg,
          cleanup_mk _ _ _ _ sid _ (mapGet_set_self st.sessions sid _)]
        show RegistryInv (mapDelete (mapSet st.sessions sid _) sid)
          (releasePort (st.usedPorts ++ [p]) p)
        rw [mapDelete_mapSet_fresh _ _ _ hsid, hports]
        exact h
      | ok =>
        rw [procRed_ok st r sid now ext p _ hv hg]
        exact inv_register st.sessions st.usedPorts sid _ h hsid hn

theorem inv_stop (st : ServiceState) (sid : String)
    (h : RegistryInv st.sessions st.usedPorts) :
    RegistryInv (stopDev st sid).2.sessions (stopDev st sid).2.usedPorts := by
  unfold stopDev
  rcases hg : mapGet st.sessions sid with _ | s
  · exact h
  · exact inv_cleanup st sid h

theorem inv_sweep (st : ServiceState) (now : Nat)
    (h : RegistryInv st.sessions st.usedPorts) :
    RegistryInv (sweep st now).sessions (sweep st now).usedPorts := by
  unfold sweep
  generalize st.sessions = l
  induction l generalizing st with
  | nil => exact h
  | cons e l ih =>
    rw [List.foldl_cons]
    apply ih
    unfold sweepStep
    split
    · exact inv_cleanup st e.1 h
    · exact h

theorem inv_applyOp (st : ServiceState) (op : Op)
    (h : RegistryInv st.sessions st.usedPorts) (hgood : goodOp st op = true) :
    RegistryInv (applyOp st op).sessions (applyOp st op).usedPorts := by
  cases op with
  | startDocker r sid now env =>
    unfold goodOp at hgood
    obtain ⟨h1, h2⟩ := (Bool.and_eq_true _ _).mp hgood
    exact inv_startDocker st r sid now env h
      (Option.isNone_iff_eq_none.mp h1)
      (fun he => by simp [he] at h2)
  | startProc r sid now env ext =>
    unfold goodOp at hgood
    exact inv_startProc st r sid now env ext h (Option.isNone_iff_eq_none.mp hgood)
  | stop sid => exact inv_stop st sid h
  | expire now => exact inv_sweep st now h

theorem inv_goodTrace (ops : List Op) :
    ∀ st, RegistryInv st.sessions st.usedPorts → goodTrace st ops = true →
      RegistryInv (runOps st ops).sessions (runOps st ops).usedPorts := by
  induction ops with
  | nil => exact fun st h _ => h
  | cons op ops ih =>
    intro st h hg
    unfold goodTrace at hg
    obtain ⟨h1, h2⟩ := (Bool.and_eq_true _ _).mp hg
    exact ih (applyOp st op) (inv_applyOp st op h h1) h2

/-- C2 counterexample: from the empty state, a first docker `start-dev`
whose `container.inspect()` throws leaves session `s1` registered with
port 6001 while the catch block has already released 6001; a second
successful `start-dev` then acquires 6001 again for session `s2`.
Both sessions are concurrently live in the registry holding the same
port, refuting exclusive port ownership at every reachable state. -/
theorem C2_uniqueness_counterexample :
    (mapGet (runOps initState [Op.startDocker req0 "s1" 0 .inspectError,
        Op.startDocker req0 "s2" 0 .ok]).sessions "s1").map Session.port = some 6001 ∧
    (mapGet (runOps initState [Op.startDocker req0 "s1" 0 .inspectError,
        Op.startDocker req0 "s2" 0 .ok]).sessions "s2").map Session.port = some 6001 := by
  decide

/-- C2 amended: at every state reachable by operations whose generated
session ids are fresh and whose docker `start-dev` calls do not fail
between session registration and the readiness check (no
`container.inspect()` throw — the docker catch block releases the port
without deregistering), session ids in the registry are pairwise distinct
and no two distinct live sessions hold the same port. -/
theorem C2_uniqueness_amended (ops : List Op) (h : goodTrace initState ops = true) :
    (mapKeys (runOps initState ops).sessions).Nodup ∧
    ∀ e1 ∈ (runOps initState ops).sessions, ∀ e2 ∈ (runOps initState ops).sessions,
      e1.1 ≠ e2.1 → e1.2.port ≠ e2.2.port := by
  have hinv := inv_goodTrace ops initState
    ⟨List.nodup_nil, fun e he => absurd he (List.not_mem_nil e), by
      intro e1 he1
      exact absurd he1 (List.not_mem_nil e1)⟩ h
  exact ⟨hinv.1, hinv.2.2⟩

/-- Witness for C2 amended: two clean starts followed by a stop. -/
theorem C2_uniqueness_amended_witness :
    goodTrace initState [Op.startDocker req0 "s1" 0 .ok, Op.startDocker req0 "s2" 5 .ok,
      Op.stop "s1"] = true ∧
    (mapKeys (runOps initState [Op.startDocker req0 "s1" 0 .ok,
      Op.startDocker req0 "s2" 5 .ok, Op.stop "s1"]).sessions).Nodup :=
  ⟨by decide,
   (C2_uniqueness_amended [Op.startDocker req0 "s1" 0 .ok, Op.startDocker req0 "s2" 5 .ok,
     Op.stop "s1"] (by decide)).1⟩

/-! ### C6 -/

theorem charsHavePre_nil (l : List Char) : charsHavePre l [] = true := by
  cases l <;> rfl

theorem charsHavePre_append (p r : List Char) : charsHavePre (p ++ r) p = true := by
  induction p with
  | nil => exact charsHavePre_nil r
  | cons c p ih => simp [charsHavePre, ih]

theorem charsHavePre_self (l : List Char) : charsHavePre l l = true := by
  have h := charsHavePre_append l []
  rwa [List.append_nil] at h

theorem jsStartsWith_self (s : String) : jsStartsWith s s = true :=
  charsHavePre_self s.data

theorem jsStartsWith_append (pre rest : String) : jsStartsWith (pre ++ rest) pre = true := by
  unfold jsStartsWith
  rw [String.data_append]
  exact charsHavePre_append pre.data rest.data

theorem jsDrop_append (pre rest : String) : jsDrop (pre ++ rest) (jsLen pre) = rest := by
  unfold jsDrop jsLen
  rw [String.data_append, List.drop_left]

theorem jsDrop_len_self (s : String) : jsDrop s (jsLen s) = "" := by
  unfold jsDrop jsLen
  rw [List.drop_length]

theorem takeWhile_all_true (p : Char → Bool) (l : List Char)
    (h : ∀ c ∈ l, p c = true) : l.takeWhile p = l := by
  induction l with
  | nil => rfl
  | cons c l ih =>
    rw [List.takeWhile_cons, h c (List.mem_cons_self c l),
      ih (fun x hx => h x (List.mem_cons_of_mem c hx))]
    rfl

theorem takeWhile_append_stop (p : Char → Bool) (l : List Char) (a : Char) (r : List Char)
    (hl : ∀ c ∈ l, p c = true) (ha : p a = false) :
    (l ++ a :: r).takeWhile p = l := by
  induction l with
  | nil =>
    rw [List.nil_append, List.takeWhile_cons, ha]
    rfl
  | cons c l ih =>
    rw [List.cons_append, List.takeWhile_cons, hl c (List.mem_cons_self c l),
      ih (fun x hx => hl x (List.mem_cons_of_mem c hx))]
    rfl

theorem str_beq_empty_false (r : String) (h : r.data ≠ []) : (r == "") = false := by
  cases hb : r == ""
  · rfl
  · exact absurd (congrArg String.data (eq_of_beq hb)) h

theorem pathSessionId_of_segment (sid rest : String)
    (hne : sid.data.isEmpty = false)
    (hslash : ∀ c ∈ sid.data, (c == '/') = false) :
    pathSessionId ("/dev/" ++ sid ++ "/" ++ rest) = some sid := by
  have hp : "/dev/" ++ sid ++ "/" ++ rest = "/dev/" ++ (sid ++ ("/" ++ rest)) := by
    rw [String.append_assoc, String.append_assoc]
  have htail : (sid ++ ("/" ++ rest)).data = sid.data ++ '/' :: rest.data := by
    rw [String.data_append, String.data_append]
    rfl
  unfold pathSessionId
  rw [hp, jsStartsWith_append]
  have hdrop : ("/dev/" ++ (sid ++ ("/" ++ rest))).data.drop 5 =
      sid.data ++ '/' :: rest.data := by
    rw [String.data_append,
      show (5 : Nat) = ("/dev/" : String).data.length from rfl, List.drop_left, htail]
  rw [hdrop, takeWhile_append_stop _ sid.data '/' rest.data
    (fun c hc => by rw [hslash c hc]; rfl) rfl]
  simp [hne]

theorem pathSessionId_of_exact (sid : String)
    (hne : sid.data.isEmpty = false)
    (hslash : ∀ c ∈ sid.data, (c == '/') = false) :
    pathSessionId ("/dev/" ++ sid) = some sid := by
  unfold pathSessionId
  rw [jsStartsWith_append]
  have hdrop : ("/dev/" ++ sid).data.drop 5 = sid.data := by
    rw [String.data_append,
      show (5 : Nat) = ("/dev/" : String).data.length from rfl, List.drop_left]
  rw [hdrop, takeWhile_all_true _ sid.data (fun c hc => by rw [hslash c hc]; rfl)]
  simp [hne]

theorem pathRewrite_self_segment (sid rest : String) :
    pathRewrite sid ("/dev/" ++ sid ++ "/" ++ rest) = "/" ++ rest := by
  have hp : "/dev/" ++ sid ++ "/" ++ rest = ("/dev/" ++ sid) ++ ("/" ++ rest) :=
    String.append_assoc _ _ _
  have hne : (("/" ++ rest) == "") = false :=
    str_beq_empty_false _ (by rw [String.data_append]; simp)
  unfold pathRewrite
  rw [hp, jsStartsWith_append, jsDrop_append]
  simp [hne]

theorem pathRewrite_self_exact (sid : String) :
    pathRewrite sid ("/dev/" ++ sid) = "/" := by
  unfold pathRewrite
  rw [jsStartsWith_self, jsDrop_len_self]
  simp

theorem scanCookie_cons (c : Char) (cs : List Char) :
    scanCookie (c :: cs) =
      if charsHavePre (c :: cs) devSessionKey then
        if ((List.drop devSessionKey.length (c :: cs)).takeWhile (fun x => !(x == ';'))).isEmpty
        then scanCookie cs
        else some ⟨(List.drop devSessionKey.length (c :: cs)).takeWhile (fun x => !(x == ';'))⟩
      else scanCookie cs := rfl

theorem scanCookie_key (l : List Char) (hne : l.isEmpty = false)
    (hs : ∀ c ∈ l, (c == ';') = false) :
    scanCookie (devSessionKey ++ l) = some ⟨l⟩ := by
  have hcons : devSessionKey ++ l = 'd' :: ("ev_session=".data ++ l) := rfl
  have hpre : charsHavePre ('d' :: ("ev_session=".data ++ l)) devSessionKey = true := by
    have h := charsHavePre_append devSessionKey l
    rwa [hcons] at h
  have hdrop : List.drop devSessionKey.length ('d' :: ("ev_session=".data ++ l)) = l := by
    have h := List.drop_left devSessionKey l
    rwa [hcons] at h
  rw [hcons, scanCookie_cons, hpre, hdrop,
    takeWhile_all_true _ l (fun c hc => by rw [hs c hc]; rfl)]
  simp [hne]

theorem parse_cookie_self (sid : String) (hne : sid.data.isEmpty = false)
    (hs : ∀ c ∈ sid.data, (c == ';') = false) :
    parseDevSessionCookie ("dev_session=" ++ sid) = some sid := by
  unfold parseDevSessionCookie
  have hdata : ("dev_session=" ++ sid).data = devSessionKey ++ sid.data :=
    String.data_append _ _
  rw [hdata, scanCookie_key sid.data hne hs]

/-- C6: with a live session `sid`, a request to `/dev/{sid}/path` is proxied
to that session's loopback port with the `/dev/{sid}` prefix stripped and
the leading slash preserved (an empty remainder maps to `/`), and the
response sets the `dev_session` affinity cookie; a subsequent request to
`/dev/other-asset` (not itself a live session id) carrying only that cookie
is routed to the same session's port. -/
theorem C6_router (st : ServiceState) (sid rest : String) (s : Session)
    (hlive : mapGet st.sessions sid = some s)
    (hne : sid.data.isEmpty = false)
    (hslash : ∀ c ∈ sid.data, (c == '/') = false)
    (hsemi : ∀ c ∈ sid.data, (c == ';') = false)
    (hasset : mapGet st.sessions "other-asset" = none) :
    devRoute st ("/dev/" ++ sid ++ "/" ++ rest) "" =
      { status := 200, targetPort := some s.port, forwardedPath := some ("/" ++ rest),
        setCookie := some sid } ∧
    devRoute st ("/dev/" ++ sid) "" =
      { status := 200, targetPort := some s.port, forwardedPath := some "/",
        setCookie := some sid } ∧
    (devRoute st "/dev/other-asset" ("dev_session=" ++ sid)).status = 200 ∧
    (devRoute st "/dev/other-asset" ("dev_session=" ++ sid)).targetPort = some s.port := by
  have h4 : devRoute st "/dev/other-asset" ("dev_session=" ++ sid) =
      { status := 200, targetPort := some s.port,
        forwardedPath := some (pathRewrite sid "/dev/other-asset"), setCookie := none } := by
    have h3 : pathSessionId "/dev/other-asset" = some "other-asset" := rfl
    simp only [devRoute, h3, hasset, cookieFallback, parse_cookie_self sid hne hsemi, hlive]
  refine ⟨?_, ?_, by rw [h4], by rw [h4]⟩
  · simp only [devRoute, pathSessionId_of_segment sid rest hne hslash, hlive,
      pathRewrite_self_segment]
  · simp only [devRoute, pathSessionId_of_exact sid hne hslash, hlive,
      pathRewrite_self_exact]

/-- Witness for C6 at the demo state with session `s1`. -/
theorem C6_router_witness :
    mapGet demoState.sessions "s1" = some (Session.mk 0 6001 "blk" none 0) ∧
    (devRoute demoState ("/dev/" ++ "s1" ++ "/" ++ "main.js") "" =
      { status := 200, targetPort := some (Session.mk 0 6001 "blk" none 0).port,
        forwardedPath := some ("/" ++ "main.js"), setCookie := some "s1" } ∧
     devRoute demoState ("/dev/" ++ "s1") "" =
      { status := 200, targetPort := some (Session.mk 0 6001 "blk" none 0).port,
        forwardedPath := some "/", setCookie := some "s1" } ∧
     (devRoute demoState "/dev/other-asset" ("dev_session=" ++ "s1")).status = 200 ∧
     (devRoute demoState "/dev/other-asset" ("dev_session=" ++ "s1")).targetPort
       = some (Session.mk 0 6001 "blk" none 0).port) :=
  ⟨by decide,
   C6_router demoState "s1" "main.js" (Session.mk 0 6001 "blk" none 0)
     (by decide) (by decide) (by decide) (by decide) (by decide)⟩

end RunDev
